import Mathlib

/-!
Verification of the rollingwriter repository (src/writer.go) against its
natural-language specification.

The Go code is shallowly embedded: every function that a claim refers to is
translated into an executable Lean definition over explicit state.  Filesystem
and channel nondeterminism (whether a rename, open, write, seek, copy or remove
succeeds; whether a channel receiver is ready) is passed in as explicit boolean
oracles, so each definition is a pure function of the code path it models.
-/

namespace RollingWriter

/-- Error values observable in the embedding.  `errClosed` models the
repository's `ErrClosed` value returned by the async writer; `errFileClosed`
models Go's `os.ErrClosed` ("file already closed") returned by
`(*os.File).Close` and `Write` on an already-closed handle;
`badFileDescriptor` models the error Go returns when writing to a file handle
that was opened read-only. -/
inductive GoError where
  | errClosed
  | errFileClosed
  | badFileDescriptor
  | ioFail
  | openFailed
  | seekFailed
  | copyFailed
  | removeFailed
deriving DecidableEq, Repr

/-- Model of a Go `*os.File` handle: whether it has been closed, whether it was
opened with a writable access mode, the bytes written through it, and how many
times the underlying descriptor was actually released (`sysCloses`). -/
structure GoFile where
  closed : Bool
  writable : Bool
  data : List UInt8
  sysCloses : Nat
deriving DecidableEq, Repr

/-- Result of a file write: the updated handle, the byte count, the error. -/
structure WriteRes where
  file : GoFile
  n : Nat
  err : Option GoError
deriving DecidableEq, Repr

/-- Go `(*os.File).Close`: the second close of a handle returns
`os.ErrClosed` and does not release the descriptor again (Go's `os.File`
guards the double close internally). -/
def GoFile.close (f : GoFile) : GoFile × Option GoError :=
  if f.closed then (f, some .errFileClosed)
  else ({ f with closed := true, sysCloses := f.sysCloses + 1 }, none)

/-- Go `(*os.File).Write`: fails on a closed handle, fails with a
bad-file-descriptor error on a read-only handle, and otherwise succeeds or
fails according to the i/o oracle `ok` (failures are modelled as writing
nothing). -/
def GoFile.write (f : GoFile) (b : List UInt8) (ok : Bool) : WriteRes :=
  if f.closed then ⟨f, 0, some .errFileClosed⟩
  else if !f.writable then ⟨f, 0, some .badFileDescriptor⟩
  else if ok then ⟨{ f with data := f.data ++ b }, b.length, none⟩
  else ⟨f, 0, some .ioFail⟩

/-! ## Retention queue (writer.go `DoRemove` and the enqueue loop in `Reopen`)

`w.rollingfilech` is a Go channel of capacity `MaxRemain`; it is a FIFO queue
of historical file names.  The background goroutine in `Reopen` runs

    retry:
      select {
      case w.rollingfilech <- file:
      default:
        w.DoRemove()
        goto retry
      }

and `DoRemove` receives the front of the channel (the oldest name) and deletes
that file. -/

/-- State of the retention subsystem: the queue contents (front = oldest
rotated file) and the file names deleted so far, in deletion order. -/
structure RetentionState where
  queue : List String
  removed : List String
deriving DecidableEq, Repr

/-- The `retry:`/`goto retry` loop of writer.go `Reopen`: try to enqueue
`f`; while the channel is full (length not below the capacity `N`), run
`DoRemove` (dequeue the oldest name, delete that file) and retry.  The
empty-queue full branch (possible only for `N = 0`, which the code excludes
by the `MaxRemain > 0` guard) is modelled as a no-op. -/
def enqueueLoop (N : Nat) (f : String) : List String → List String → RetentionState
  | [], r => if ([] : List String).length < N then ⟨[f], r⟩ else ⟨[], r⟩
  | x :: rest, r =>
    if (x :: rest).length < N then ⟨x :: rest ++ [f], r⟩
    else enqueueLoop N f rest (r ++ [x])

/-- One rotation's retention step on a `RetentionState`. -/
def rollingEnqueue (N : Nat) (s : RetentionState) (f : String) : RetentionState :=
  enqueueLoop N f s.queue s.removed

/-- The retention effect of a whole sequence of rotations, oldest first,
starting from an empty queue. -/
def rotateAll (N : Nat) (fs : List String) : RetentionState :=
  fs.foldl (rollingEnqueue N) ⟨[], []⟩

lemma enqueueLoop_of_lt {N : Nat} {q r : List String} {f : String}
    (h : q.length < N) : enqueueLoop N f q r = ⟨q ++ [f], r⟩ := by
  cases q with
  | nil =>
    simp only [enqueueLoop]
    rw [if_pos h]
    simp
  | cons x rest =>
    simp only [enqueueLoop]
    rw [if_pos h]

lemma enqueueLoop_of_full {N : Nat} {x : String} {rest r : List String} {f : String}
    (h1 : ¬ (x :: rest).length < N) (h2 : rest.length < N) :
    enqueueLoop N f (x :: rest) r = ⟨rest ++ [f], r ++ [x]⟩ := by
  simp only [enqueueLoop]
  rw [if_neg h1]
  exact enqueueLoop_of_lt h2

lemma foldl_rollingEnqueue_fill (N : Nat) :
    ∀ (fs : List String) (q r : List String), q.length + fs.length ≤ N →
      fs.foldl (rollingEnqueue N) ⟨q, r⟩ = ⟨q ++ fs, r⟩ := by
  intro fs
  induction fs with
  | nil => intro q r _; simp
  | cons a tl ih =>
    intro q r h
    simp only [List.length_cons] at h
    have hq : q.length < N := by omega
    have hstep : rollingEnqueue N ⟨q, r⟩ a = ⟨q ++ [a], r⟩ := enqueueLoop_of_lt hq
    rw [List.foldl_cons, hstep,
      ih (q ++ [a]) r (by simp only [List.length_append, List.length_singleton]; omega)]
    simp

/-- C1.  Retention invariant and FIFO eviction: the retention queue never
grows beyond its capacity `N`; and after `N + 1` rotations starting from an
empty queue, exactly `N` historical names remain — the ones from rotations
`2 .. N+1` in order — and the single deleted file is the oldest rotation. -/
theorem retention_fifo_bounded (N : Nat) :
    (∀ (s : RetentionState) (f : String), s.queue.length ≤ N →
       (rollingEnqueue N s f).queue.length ≤ N) ∧
    (∀ fs : List String, 0 < N → fs.length = N + 1 →
       (rotateAll N fs).queue = fs.drop 1 ∧
       (rotateAll N fs).queue.length = N ∧
       (rotateAll N fs).removed = fs.take 1) := by
  constructor
  · intro s f h
    by_cases hlt : s.queue.length < N
    · have hstep : rollingEnqueue N s f = ⟨s.queue ++ [f], s.removed⟩ := enqueueLoop_of_lt hlt
      rw [hstep]
      simpa using hlt
    · have hq : s.queue.length = N := le_antisymm h (not_lt.mp hlt)
      rcases hqq : s.queue with _ | ⟨x, rest⟩
      · have hN0 : N = 0 := by rw [hqq] at hq; simpa using hq.symm
        have hstep : rollingEnqueue N s f = ⟨[], s.removed⟩ := by
          unfold rollingEnqueue
          rw [hqq]
          simp [enqueueLoop, hN0]
        rw [hstep]; simp
      · have hrest : rest.length < N := by
          rw [hqq] at hq; simp only [List.length_cons] at hq; omega
        have hfull : ¬ (x :: rest).length < N := by
          rw [hqq] at hlt; exact hlt
        have hstep : rollingEnqueue N s f = ⟨rest ++ [f], s.removed ++ [x]⟩ := by
          unfold rollingEnqueue
          rw [hqq]
          exact enqueueLoop_of_full hfull hrest
        rw [hstep]
        rw [hqq] at hq
        simp only [List.length_cons] at hq
        simp only [List.length_append, List.length_singleton]
        omega
  · intro fs hN hlen
    induction fs using List.reverseRecOn with
    | nil => simp at hlen
    | append_singleton ys z _ =>
      have hys : ys.length = N := by
        simp only [List.length_append, List.length_singleton] at hlen; omega
      obtain ⟨y, ytail, rfl⟩ : ∃ y ytail, ys = y :: ytail := by
        cases ys with
        | nil => rw [List.length_nil] at hys; omega
        | cons y ytail => exact ⟨y, ytail, rfl⟩
      have hyt : ytail.length + 1 = N := by simpa using hys
      have hfill : (y :: ytail).foldl (rollingEnqueue N) ⟨[], []⟩ = ⟨y :: ytail, []⟩ := by
        simpa using foldl_rollingEnqueue_fill N (y :: ytail) [] []
          (by simp only [List.length_nil, List.length_cons]; omega)
      have hstep : rollingEnqueue N ⟨y :: ytail, []⟩ z = ⟨ytail ++ [z], [] ++ [y]⟩ := by
        unfold rollingEnqueue
        exact enqueueLoop_of_full (by simp only [List.length_cons]; omega) (by omega)
      have hall : rotateAll N (y :: ytail ++ [z]) = ⟨ytail ++ [z], [y]⟩ := by
        unfold rotateAll
        rw [List.foldl_append, hfill, List.foldl_cons, List.foldl_nil, hstep]
        simp
      refine ⟨?_, ?_, ?_⟩
      · rw [hall]; simp
      · rw [hall]; simp only [List.length_append, List.length_singleton]; omega
      · rw [hall]; simp

/-- Witness for C1 at capacity 2 and three rotations. -/
theorem retention_fifo_bounded_witness :
    (rotateAll 2 ["a", "b", "c"]).removed = ["a", "b", "c"].take 1 ∧
    (rollingEnqueue 2 ⟨["a", "b"], []⟩ "c").queue.length ≤ 2 :=
  ⟨((retention_fifo_bounded 2).2 ["a", "b", "c"] (by decide) (by decide)).2.2,
   (retention_fifo_bounded 2).1 ⟨["a", "b"], []⟩ "c" (by decide)⟩

/-! ## Rotation protocol (writer.go `Reopen`)

`Reopen` closes the current handle, renames the live file to the rotation
target (`file` or `file + ".tmp"` when compression is on) with one immediate
retry and one further retry after a 10 ms sleep, and then either opens a fresh
handle at the absolute path (success) or, when every rename failed, re-opens
the original path with `os.Open` and returns nil.  `renameOk i` tells whether
the i-th `os.Rename` attempt would succeed; `openOk` tells whether the
`os.OpenFile` on the success path succeeds. -/

/-- Access mode of a Go open flag. -/
inductive AccessMode where
  | readOnly
  | writeOnly
  | readWrite
deriving DecidableEq, Repr

/-- Go open flags restricted to what the writer uses. -/
structure OpenFlag where
  access : AccessMode
  create : Bool
  append : Bool
deriving DecidableEq, Repr

/-- Whether a handle opened with this flag can be written. -/
def OpenFlag.writable (f : OpenFlag) : Bool :=
  match f.access with
  | .readOnly => false
  | _ => true

/-- Go `os.Open(name)` is `os.OpenFile(name, O_RDONLY, 0)`: read-only, no
creation, no append. -/
def osOpenFlag : OpenFlag := ⟨.readOnly, false, false⟩

/-- Modelled from the spec: the repository constant `DefaultFileFlag` is
declared outside src/writer.go; spec 4.1 step 3 requires the new file to be
opened "with creation/append semantics", hence a writable create/append
flag. -/
def DefaultFileFlag : OpenFlag := ⟨.readWrite, true, true⟩

/-- Everything observable about one `Reopen` call: the error returned to the
caller, the rename target, how many `os.Rename` calls were made, whether one
of them succeeded, how long the retry loop slept, the flag used for the
re-open of the absolute path (`none` when the post-rename open failed and the
old handle is kept), and the resulting `w.file` handle. -/
structure ReopenResult where
  error : Option GoError
  renameTarget : String
  renameAttempts : Nat
  renameSucceeded : Bool
  sleptMillis : Nat
  openedWithFlag : Option OpenFlag
  newFile : GoFile
deriving DecidableEq, Repr

/-- writer.go `Reopen` (lines 222-265).  All control paths `return nil`.
On rename success the new handle is a fresh writable file when `openOk`,
otherwise `w.file` keeps the just-closed old handle.  When all three rename
attempts fail, the original path is re-opened via `os.Open` — a read-only
handle over the still-present original file. -/
def Reopen (compress : Bool) (file : String) (renameOk : Nat → Bool) (openOk : Bool)
    (old : GoFile) : ReopenResult :=
  let target := if compress then file ++ ".tmp" else file
  let oldClosed := (GoFile.close old).1
  let success (attempts slept : Nat) : ReopenResult :=
    if openOk then
      ⟨none, target, attempts, true, slept, some DefaultFileFlag, ⟨false, true, [], 0⟩⟩
    else
      ⟨none, target, attempts, true, slept, none, oldClosed⟩
  if renameOk 0 then success 1 0
  else if renameOk 1 then success 2 0
  else if renameOk 2 then success 3 10
  else ⟨none, target, 3, false, 10, some osOpenFlag, ⟨false, false, old.data, 0⟩⟩

/-- C2.  Evidence for the degraded-rotation path: when every rename attempt
fails, `Reopen` returns nil (no rotation error reaches `Write`), but the
original path is re-opened through `os.Open`, i.e. read-only, so the very
next write through the handle fails with a bad-file-descriptor error instead
of continuing to write — while the success path opens with the writable
create/append `DefaultFileFlag`. -/
theorem reopen_degraded_opens_readonly :
    (Reopen false "x.log" (fun _ => false) true ⟨false, true, [65], 0⟩).error = none ∧
    (Reopen false "x.log" (fun _ => false) true ⟨false, true, [65], 0⟩).renameSucceeded
      = false ∧
    (Reopen false "x.log" (fun _ => false) true ⟨false, true, [65], 0⟩).openedWithFlag
      = some osOpenFlag ∧
    osOpenFlag.writable = false ∧
    ((Reopen false "x.log" (fun _ => false) true ⟨false, true, [65], 0⟩).newFile.write
        [66] true).err = some GoError.badFileDescriptor ∧
    DefaultFileFlag.writable = true := by
  decide

/-- C3 counterexample.  The claim says up to four rename attempts (two extra
immediate retries, then a delayed one).  With an oracle whose fourth attempt
(index 3) would succeed, `Reopen` still gives up unrenamed after exactly three
attempts, so a fourth attempt is never made. -/
theorem reopen_retry_counterexample :
    (Reopen false "f.log" (fun i => decide (3 ≤ i)) true
        ⟨false, true, [], 0⟩).renameAttempts = 3 ∧
    (Reopen false "f.log" (fun i => decide (3 ≤ i)) true
        ⟨false, true, [], 0⟩).renameSucceeded = false ∧
    (fun i => decide (3 ≤ i)) 3 = true := by
  decide

/-- C3 amended.  The rename retry schedule of `Reopen`: one initial attempt,
one additional immediate retry, then one final retry after a 10 ms sleep —
at most three rename attempts in total, succeeding exactly when one of the
first three oracle answers is positive. -/
theorem reopen_retry_schedule :
    ∀ (compress : Bool) (file : String) (renameOk : Nat → Bool) (openOk : Bool)
      (old : GoFile),
    (Reopen compress file renameOk openOk old).renameAttempts
      = (if renameOk 0 then 1 else if renameOk 1 then 2 else 3) ∧
    (Reopen compress file renameOk openOk old).renameSucceeded
      = (renameOk 0 || renameOk 1 || renameOk 2) ∧
    (Reopen compress file renameOk openOk old).sleptMillis
      = (if renameOk 0 || renameOk 1 then 0 else 10) := by
  intro compress file renameOk openOk old
  cases h0 : renameOk 0 <;> cases h1 : renameOk 1 <;> cases h2 : renameOk 2 <;>
    cases ho : openOk <;> simp [Reopen, h0, h1, h2, ho]

lemma reopen_error_none (compress : Bool) (file : String) (renameOk : Nat → Bool)
    (openOk : Bool) (old : GoFile) :
    (Reopen compress file renameOk openOk old).error = none := by
  cases h0 : renameOk 0 <;> cases h1 : renameOk 1 <;> cases h2 : renameOk 2 <;>
    cases ho : openOk <;> simp [Reopen, h0, h1, h2, ho]

/-! ## Write paths -/

/-- The value a `Write` method returns: either the early `return 0, err`
taken when `Reopen` reports an error, or the ordinary write result. -/
inductive WriteReturn where
  | reopenFailed (e : GoError)
  | ok (n : Nat) (err : Option GoError)
deriving DecidableEq, Repr

/-- Whether a `WriteReturn` came out of the `Reopen`-error branch. -/
def WriteReturn.isReopenFailed : WriteReturn → Bool
  | .reopenFailed _ => true
  | .ok _ _ => false

/-- writer.go `Writer.Write` (lines 267-278): non-blocking check of the fire
channel (`fire` is `some name` when a rotation signal is pending), `Reopen`
on a signal with an early error return, then a write through the current
handle. -/
def WriterWrite (fire : Option String) (compress : Bool) (renameOk : Nat → Bool)
    (openOk : Bool) (wOk : Bool) (f : GoFile) (b : List UInt8) : GoFile × WriteReturn :=
  match fire with
  | some name =>
    let r := Reopen compress name renameOk openOk f
    match r.error with
    | some e => (f, .reopenFailed e)
    | none =>
      let w := r.newFile.write b wOk
      (w.file, .ok w.n w.err)
  | none =>
    let w := f.write b wOk
    (w.file, .ok w.n w.err)

/-- State of a `BufferWriter`: the shared pending buffer `*w.buf`, the
`swaping` flush flag, the file handle, and a ghost record of the capacity
passed to the most recent `make([]byte, 0, …)` that replaced the buffer. -/
structure BufState where
  buf : List UInt8
  swaping : Bool
  file : GoFile
  lastAllocCap : Option Nat
deriving DecidableEq, Repr

/-- The append-and-maybe-flush body of `BufferWriter.Write` (lines 351-359):
append `b`, publish the new buffer, and if its length exceeds the threshold
and the compare-and-swap on `swaping` wins (sequentially: the flag is clear),
swap in a fresh empty buffer of capacity `threshold*2`, write the whole old
buffer to the file (both return values of that write are discarded by the
source), and release the flag. -/
def bufAppendFlush (threshold : Nat) (flushOk : Bool) (s : BufState) (b : List UInt8) :
    BufState × WriteReturn :=
  let nbuf := s.buf ++ b
  if decide (threshold < nbuf.length) && !s.swaping then
    let w := s.file.write nbuf flushOk
    (⟨[], false, w.file, some (threshold * 2)⟩, .ok b.length none)
  else
    (⟨nbuf, s.swaping, s.file, s.lastAllocCap⟩, .ok b.length none)

/-- writer.go `BufferWriter.Write` (lines 343-360): rotation check first,
then the append-and-maybe-flush protocol. -/
def BufferWriterWrite (threshold : Nat) (fire : Option String) (compress : Bool)
    (renameOk : Nat → Bool) (openOk : Bool) (flushOk : Bool) (s : BufState)
    (b : List UInt8) : BufState × WriteReturn :=
  match fire with
  | some name =>
    let r := Reopen compress name renameOk openOk s.file
    match r.error with
    | some e => (s, .reopenFailed e)
    | none => bufAppendFlush threshold flushOk ⟨s.buf, s.swaping, r.newFile, s.lastAllocCap⟩ b
  | none => bufAppendFlush threshold flushOk s b

/-- writer.go `BufferWriter.Close` (lines 407-410): write the remaining
buffer — both return values of that write are discarded — then close the
handle and return only the close error. -/
def bufferClose (s : BufState) (wOk : Bool) : BufState × Option GoError :=
  let w := s.file.write s.buf wOk
  let c := w.file.close
  (⟨s.buf, s.swaping, c.1, s.lastAllocCap⟩, c.2)

/-- C4 counterexample.  With threshold 3 a write of four bytes triggers the
flush, but the freshly allocated replacement buffer has capacity
`threshold*2 = 6`, not the threshold 3 the claim states. -/
theorem buffer_flush_capacity_counterexample :
    (BufferWriterWrite 3 none false (fun _ => false) true true
        ⟨[], false, ⟨false, true, [], 0⟩, none⟩ [1, 2, 3, 4]).1.lastAllocCap = some 6 ∧
    decide ((some (6 : Nat)) = some 3) = false := by
  decide

/-- C4 amended.  The flush protocol of `BufferWriter.Write` with the
replacement-buffer capacity corrected to twice the threshold: when the
appended buffer exceeds the threshold and the `swaping` flag is idle, the
flush swaps in a fresh empty buffer of capacity `threshold*2`, writes the
entire old buffer to the file, and releases the flag; when the flag is
already taken the caller only appends. -/
theorem buffer_flush_protocol :
    ∀ (threshold : Nat) (compress : Bool) (renameOk : Nat → Bool)
      (openOk : Bool) (s : BufState) (b : List UInt8),
    s.file.closed = false → s.file.writable = true →
    (s.swaping = false → threshold < (s.buf ++ b).length →
      BufferWriterWrite threshold none compress renameOk openOk true s b
        = (⟨[], false,
            ⟨false, true, s.file.data ++ (s.buf ++ b), s.file.sysCloses⟩,
            some (threshold * 2)⟩,
           .ok b.length none)) ∧
    (s.swaping = true →
      BufferWriterWrite threshold none compress renameOk openOk true s b
        = (⟨s.buf ++ b, true, s.file, s.lastAllocCap⟩, .ok b.length none)) := by
  intro threshold compress renameOk openOk s b hopen hwr
  constructor
  · intro hsw hlen
    simp only [BufferWriterWrite, bufAppendFlush, hsw, GoFile.write, hopen, hwr]
    rw [if_pos (by simpa using hlen)]
    simp
  · intro hsw
    simp [BufferWriterWrite, bufAppendFlush, hsw]

/-- Witness for C4 amended: threshold 3, four bytes appended to an empty
buffer on an open writable file. -/
theorem buffer_flush_protocol_witness :
    BufferWriterWrite 3 none false (fun _ => false) true true
        ⟨[], false, ⟨false, true, [], 0⟩, none⟩ [1, 2, 3, 4]
      = (⟨[], false, ⟨false, true, [] ++ ([] ++ [1, 2, 3, 4]), 0⟩, some (3 * 2)⟩,
         .ok (List.length [1, 2, 3, 4]) none) :=
  (buffer_flush_protocol 3 false (fun _ => false) true
      ⟨[], false, ⟨false, true, [], 0⟩, none⟩ [1, 2, 3, 4] rfl rfl).1 rfl (by decide)

/-- C8 counterexample.  Closing a `BufferWriter` holding one pending byte
while the flush write fails: `Close` returns no error, yet the byte never
reaches the file — the flush failure is silently discarded. -/
theorem buffer_close_drops_flush_error :
    (bufferClose ⟨[7], false, ⟨false, true, [], 0⟩, none⟩ false).2 = none ∧
    (bufferClose ⟨[7], false, ⟨false, true, [], 0⟩, none⟩ false).1.file.data = [] ∧
    decide (([7] : List UInt8) = []) = false := by
  decide

/-- C8 amended.  `BufferWriter.Close` writes the remaining buffer and then
closes the handle; when the flush write succeeds every buffered byte reaches
the file, but when it fails the error is discarded — `Close` still returns
only the (nil) close error, so buffered bytes are silently lost. -/
theorem buffer_close_flush_semantics :
    ∀ (s : BufState) (wOk : Bool),
    s.file.closed = false → s.file.writable = true →
    ((bufferClose s true).1.file.data = s.file.data ++ s.buf ∧
     (bufferClose s true).2 = none) ∧
    (wOk = false →
      (bufferClose s wOk).1.file.data = s.file.data ∧ (bufferClose s wOk).2 = none) ∧
    (bufferClose s wOk).1.file.closed = true := by
  intro s wOk hopen hwr
  refine ⟨?_, ?_, ?_⟩
  · simp [bufferClose, GoFile.write, GoFile.close, hopen, hwr]
  · intro hw
    simp [bufferClose, GoFile.write, GoFile.close, hopen, hwr, hw]
  · cases wOk <;> simp [bufferClose, GoFile.write, GoFile.close, hopen, hwr]

/-- Witness for C8 amended at a one-byte buffer and a failing flush. -/
theorem buffer_close_flush_semantics_witness :
    (bufferClose ⟨[7], false, ⟨false, true, [], 0⟩, none⟩ false).1.file.data
        = ([] : List UInt8) ∧
    (bufferClose ⟨[7], false, ⟨false, true, [], 0⟩, none⟩ false).2 = none :=
  (buffer_close_flush_semantics ⟨[7], false, ⟨false, true, [], 0⟩, none⟩ false
      rfl rfl).2.1 rfl

lemma bufAppendFlush_not_reopenFailed (threshold : Nat) (flushOk : Bool)
    (s : BufState) (b : List UInt8) :
    (bufAppendFlush threshold flushOk s b).2.isReopenFailed = false := by
  simp only [bufAppendFlush]
  split <;> rfl

/-- C10.  `Reopen` returns nil on every control path, for every rename and
open outcome; consequently the `Reopen`-error early-return branches of
`Writer.Write` and `BufferWriter.Write` are unreachable. -/
theorem reopen_never_errors :
    ∀ (compress : Bool) (name : String) (renameOk : Nat → Bool)
      (openOk wOk flushOk : Bool) (f : GoFile) (threshold : Nat)
      (fire : Option String) (s : BufState) (b : List UInt8),
    (Reopen compress name renameOk openOk f).error = none ∧
    (WriterWrite fire compress renameOk openOk wOk f b).2.isReopenFailed = false ∧
    (BufferWriterWrite threshold fire compress renameOk openOk flushOk s b).2.isReopenFailed
      = false := by
  intro compress name renameOk openOk wOk flushOk f threshold fire s b
  refine ⟨reopen_error_none compress name renameOk openOk f, ?_, ?_⟩
  · cases fire with
    | none => rfl
    | some nm =>
      simp only [WriterWrite, reopen_error_none]
      rfl
  · cases fire with
    | none => exact bufAppendFlush_not_reopenFailed threshold flushOk s b
    | some nm =>
      simp only [BufferWriterWrite, reopen_error_none]
      exact bufAppendFlush_not_reopenFailed threshold flushOk
        ⟨s.buf, s.swaping,
          (Reopen compress nm renameOk openOk s.file).newFile, s.lastAllocCap⟩ b

/-! ## Asynchronous writer (writer.go lines 298-341, 375-404)

The async writer keeps an atomic `closed` flag, a bounded chunk queue, and an
unbuffered error channel.  Channel readiness is an explicit oracle: a send on
the unbuffered `errChan` completes only when a receiver is ready; a send
inside a `select` with a `default` branch never blocks. -/

/-- State of an `AsynchronousWriter`: the `closed` flag, the pending chunk
queue, and the file handle owned by the background drain task. -/
structure AsyncState where
  closed : Bool
  queue : List (List UInt8)
  file : GoFile
deriving DecidableEq, Repr

/-- The chunking loop of `AsynchronousWriter.Write` (lines 309-315): pooled
buffers have a fixed size, so the payload is cut into pieces of at most
`n` bytes.  A zero chunk size would make the Go loop spin forever; it is
modelled as producing nothing and excluded by the positive pool buffer
size. -/
def splitChunks (n : Nat) (b : List UInt8) : List (List UInt8) :=
  if h : b = [] ∨ n = 0 then []
  else b.take n :: splitChunks n (b.drop n)
termination_by b.length
decreasing_by
  push_neg at h
  simp only [List.length_drop]
  cases b with
  | nil => exact absurd rfl h.1
  | cons x xs => simp only [List.length_cons]; omega

/-- writer.go `AsynchronousWriter.Write` (lines 298-323): a closed writer
rejects the call with `ErrClosed` and count 0; otherwise the pending error
(if any) is returned first; otherwise a pending rotation signal runs
`Reopen` inline and the payload is chunked into pooled buffers and queued;
otherwise the fast path copies the payload into one pooled buffer and
queues it. -/
def asyncWrite (chunkSize : Nat) (compress : Bool) (renameOk : Nat → Bool)
    (openOk : Bool) (pendingErr : Option GoError) (fire : Option String)
    (s : AsyncState) (b : List UInt8) : AsyncState × Nat × Option GoError :=
  if s.closed then (s, 0, some .errClosed)
  else
    match pendingErr with
    | some e => (s, 0, some e)
    | none =>
      match fire with
      | some name =>
        let r := Reopen compress name renameOk openOk s.file
        match r.error with
        | some e => (s, 0, some e)
        | none =>
          (⟨s.closed, s.queue ++ splitChunks chunkSize b, r.newFile⟩, b.length, none)
      | none => (⟨s.closed, s.queue ++ [b], s.file⟩, b.length, none)

/-- Outcome of one iteration of a drain loop on one chunk. -/
inductive DrainOutcome where
  | completed (errorDelivered : Bool) (bufferReclaimed : Bool)
  | blocked
deriving DecidableEq, Repr

/-- Whether the iteration returned its pooled chunk to the buffer pool. -/
def DrainOutcome.reclaimed : DrainOutcome → Bool
  | .completed _ r => r
  | .blocked => false

/-- A send on the unbuffered `errChan` completes exactly when a receiver is
currently ready; otherwise the sender blocks. -/
def unbufferedSendCompletes (readerReady : Bool) : Bool := readerReady

/-- One iteration of the background drain task `AsynchronousWriter.writer`
(lines 330-340) on a dequeued chunk: on a write error the error is sent with
a plain blocking send `w.errChan <- err`; only after that send returns is the
chunk returned to the pool. -/
def writerDrainStep (writeFails readerReady : Bool) : DrainOutcome :=
  if writeFails then
    if unbufferedSendCompletes readerReady then .completed true true
    else .blocked
  else .completed false true

/-- One iteration of the close-time drain `onClose` (lines 387-403) on a
dequeued chunk: on a write error the send is wrapped in a `select` with a
`default` branch, so it never blocks — if no receiver is ready the error is
dropped and the chunk is still returned to the pool. -/
def onCloseDrainStep (writeFails readerReady : Bool) : DrainOutcome :=
  if writeFails then
    if readerReady then .completed true true
    else .completed false true
  else .completed false true

/-- C5 counterexample.  In the background drain task a write error with no
reader on the error channel makes the iteration block on the unbuffered
send, and the pooled chunk is not reclaimed — refuting the non-blocking
send and the reclaim-even-when-dropped guarantee. -/
theorem drain_error_send_blocks :
    writerDrainStep true false = DrainOutcome.blocked ∧
    (writerDrainStep true false).reclaimed = false := by
  decide

/-- C5 amended.  The background drain task forwards write errors with a
blocking send on the unbuffered error channel: it blocks exactly when the
write failed and no receiver is ready, and reclaims the chunk whenever it
does not block.  The non-blocking send with unconditional reclamation is
performed only by the close-time drain `onClose`. -/
theorem drain_error_send_semantics :
    ∀ (writeFails readerReady : Bool),
    decide (writerDrainStep writeFails readerReady = DrainOutcome.blocked)
      = (writeFails && !readerReady) ∧
    (writerDrainStep writeFails readerReady).reclaimed = (!writeFails || readerReady) ∧
    decide (onCloseDrainStep writeFails readerReady = DrainOutcome.blocked) = false ∧
    (onCloseDrainStep writeFails readerReady).reclaimed = true := by
  decide

/-- The full close-time drain of `onClose`: chunks are written in order;
after a failed write whose error send finds no receiver, the task returns
with the remaining chunks still queued.  `wOks i` is the outcome oracle of
the i-th file write of this drain. -/
def onCloseDrain (readerReady : Bool) :
    GoFile → (Nat → Bool) → List (List UInt8) → GoFile × List (List UInt8)
  | f, _, [] => (f, [])
  | f, wOks, b :: rest =>
    let w := f.write b (wOks 0)
    match w.err with
    | none => onCloseDrain readerReady w.file (fun i => wOks (i + 1)) rest
    | some _ =>
      if readerReady then onCloseDrain readerReady w.file (fun i => wOks (i + 1)) rest
      else (w.file, rest)

/-- writer.go `AsynchronousWriter.Close` (lines 375-382): a compare-and-swap
on the `closed` flag guards the close — the winner stops the drain task,
flushes the queue via `onClose` and closes the handle; every later call
returns `ErrClosed` without touching the handle. -/
def asyncClose (s : AsyncState) (wOks : Nat → Bool) (readerReady : Bool) :
    AsyncState × Option GoError :=
  if s.closed then (s, some .errClosed)
  else
    let d := onCloseDrain readerReady s.file wOks s.queue
    let c := GoFile.close d.1
    (⟨true, d.2, c.1⟩, c.2)

lemma asyncClose_closes (s : AsyncState) (wOks : Nat → Bool) (rr : Bool)
    (hs : s.closed = false) : (asyncClose s wOks rr).1.closed = true := by
  simp [asyncClose, hs]

lemma asyncClose_of_closed (s : AsyncState) (wOks : Nat → Bool) (rr : Bool)
    (hs : s.closed = true) : asyncClose s wOks rr = (s, some .errClosed) := by
  simp [asyncClose, hs]

lemma bufferClose_closes (s : BufState) (wOk : Bool) (h : s.file.closed = false) :
    (bufferClose s wOk).1.file.closed = true := by
  cases hw : wOk <;> cases hwr : s.file.writable <;>
    simp [bufferClose, GoFile.write, GoFile.close, h, hw, hwr]

lemma bufferClose_of_closed (s : BufState) (wOk : Bool) (h : s.file.closed = true) :
    bufferClose s wOk
      = (⟨s.buf, s.swaping, s.file, s.lastAllocCap⟩, some .errFileClosed) := by
  simp [bufferClose, GoFile.write, GoFile.close, h]

/-- C6.  Double close for every writer variant.  `Writer.Close` and
`LockedWriter.Close` are both a bare `w.file.Close()`: the second call
returns Go's file-already-closed error and the descriptor is released only
once.  `AsynchronousWriter.Close` returns `ErrClosed` on the second call and
leaves its state untouched.  `BufferWriter.Close` returns the
file-already-closed error on the second call without releasing the
descriptor again. -/
theorem close_twice_already_closed :
    ∀ (f : GoFile) (s : AsyncState) (bs : BufState) (wOks : Nat → Bool)
      (readerReady wOk : Bool),
    f.closed = false → s.closed = false → bs.file.closed = false →
    (f.close.2 = none ∧
     f.close.1.close.2 = some GoError.errFileClosed ∧
     f.close.1.close.1.sysCloses = f.sysCloses + 1) ∧
    ((asyncClose (asyncClose s wOks readerReady).1 wOks readerReady).2
        = some GoError.errClosed ∧
     (asyncClose (asyncClose s wOks readerReady).1 wOks readerReady).1
        = (asyncClose s wOks readerReady).1) ∧
    ((bufferClose (bufferClose bs wOk).1 wOk).2 = some GoError.errFileClosed ∧
     (bufferClose (bufferClose bs wOk).1 wOk).1.file.sysCloses
        = (bufferClose bs wOk).1.file.sysCloses) := by
  intro f s bs wOks readerReady wOk hf hs hbs
  refine ⟨?_, ?_, ?_⟩
  · simp [GoFile.close, hf]
  · rw [asyncClose_of_closed _ wOks readerReady (asyncClose_closes s wOks readerReady hs)]
    exact ⟨rfl, rfl⟩
  · rw [bufferClose_of_closed _ wOk (bufferClose_closes bs wOk hbs)]
    exact ⟨rfl, rfl⟩

/-- Witness for C6: a fresh open file, a fresh open async writer and a fresh
buffer writer, each closed twice. -/
theorem close_twice_already_closed_witness :
    ((⟨false, true, [], 0⟩ : GoFile).close.1.close).2 = some GoError.errFileClosed ∧
    (asyncClose (asyncClose ⟨false, [], ⟨false, true, [], 0⟩⟩ (fun _ => true) true).1
        (fun _ => true) true).2 = some GoError.errClosed ∧
    (bufferClose (bufferClose ⟨[], false, ⟨false, true, [], 0⟩, none⟩ true).1 true).2
        = some GoError.errFileClosed :=
  ⟨(close_twice_already_closed ⟨false, true, [], 0⟩ ⟨false, [], ⟨false, true, [], 0⟩⟩
      ⟨[], false, ⟨false, true, [], 0⟩, none⟩ (fun _ => true) true true
      rfl rfl rfl).1.2.1,
   (close_twice_already_closed ⟨false, true, [], 0⟩ ⟨false, [], ⟨false, true, [], 0⟩⟩
      ⟨[], false, ⟨false, true, [], 0⟩, none⟩ (fun _ => true) true true
      rfl rfl rfl).2.1.1,
   (close_twice_already_closed ⟨false, true, [], 0⟩ ⟨false, [], ⟨false, true, [], 0⟩⟩
      ⟨[], false, ⟨false, true, [], 0⟩, none⟩ (fun _ => true) true true
      rfl rfl rfl).2.2.1⟩

/-- C7.  After a successful `Close` of the asynchronous writer, every
subsequent `Write` returns immediately with count 0 and `ErrClosed`, and the
state — queue and file — is untouched: no byte of the rejected payload is
enqueued or written. -/
theorem write_after_close_rejected :
    ∀ (chunkSize : Nat) (compress : Bool) (renameOk : Nat → Bool) (openOk : Bool)
      (pendingErr : Option GoError) (fire : Option String) (s : AsyncState)
      (wOks : Nat → Bool) (readerReady : Bool) (b : List UInt8),
    s.closed = false →
    asyncWrite chunkSize compress renameOk openOk pendingErr fire
        (asyncClose s wOks readerReady).1 b
      = ((asyncClose s wOks readerReady).1, 0, some GoError.errClosed) := by
  intro chunkSize compress renameOk openOk pendingErr fire s wOks readerReady b hs
  simp [asyncWrite, asyncClose_closes s wOks readerReady hs]

/-- Witness for C7: close a fresh async writer, then write one byte. -/
theorem write_after_close_rejected_witness :
    asyncWrite 1024 false (fun _ => false) true none none
        (asyncClose ⟨false, [], ⟨false, true, [], 0⟩⟩ (fun _ => true) true).1 [1]
      = ((asyncClose ⟨false, [], ⟨false, true, [], 0⟩⟩ (fun _ => true) true).1, 0,
         some GoError.errClosed) :=
  write_after_close_rejected 1024 false (fun _ => false) true none none
    ⟨false, [], ⟨false, true, [], 0⟩⟩ (fun _ => true) true [1] rfl

/-! ## Compression pipeline (writer.go `CompressFile`, lines 186-211)

`CompressFile cmpname` creates/opens the target `cmpname`, opens the rotated
file `cmpname + ".tmp"`, copies it through a gzip writer into the target, and
removes the `.tmp` file on success.  The filesystem is observed through the
final existence of the target and of the `.tmp` file.  Initially (right after
the rotation rename) the `.tmp` file exists and the target does not; opening
the target with the create flag brings it into existence. -/

/-- Final filesystem observation of one `CompressFile` call: the returned
error, whether the target file exists afterwards, and whether the `.tmp`
file still exists afterwards. -/
structure FsOutcome where
  error : Option GoError
  targetExists : Bool
  tmpExists : Bool
deriving DecidableEq, Repr

/-- writer.go `CompressFile` over outcome oracles for its six filesystem
steps: open/create the target, open the `.tmp` source, seek, gzip copy,
remove the target (after a copy failure), remove the `.tmp` (on success).
Error paths after the target was created leave the created target in place
except for the copy-failure branch, which removes the target but leaves the
`.tmp` file behind. -/
def CompressFile (openTargetOk openTmpOk seekOk copyOk removeTargetOk removeTmpOk : Bool) :
    FsOutcome :=
  if !openTargetOk then ⟨some .openFailed, false, true⟩
  else if !openTmpOk then ⟨some .openFailed, true, true⟩
  else if !seekOk then ⟨some .seekFailed, true, true⟩
  else if !copyOk then
    if removeTargetOk then ⟨some .copyFailed, false, true⟩
    else ⟨some .removeFailed, true, true⟩
  else if removeTmpOk then ⟨none, true, false⟩
  else ⟨some .removeFailed, true, true⟩

/-- C9 counterexample.  A gzip copy failure leaves the `.tmp` file behind
(a stray temporary survives the background task), and a seek failure leaves
the already-created target file in place (the partially created target is
not deleted), both with a reported error. -/
theorem compress_failure_counterexample :
    (CompressFile true true true false true true).tmpExists = true ∧
    (CompressFile true true true false true true).targetExists = false ∧
    decide ((CompressFile true true true false true true).error = none) = false ∧
    (CompressFile true true false true true true).targetExists = true := by
  decide

/-- C9 amended.  `CompressFile` outcomes: on success the target exists and
the `.tmp` file is removed; on a gzip-copy failure the target is removed but
the `.tmp` file remains; on an open or seek failure of the `.tmp` source the
created target remains; and whatever happens inside the rotation background
task, `Reopen` has already returned nil to the write path, so compression
errors are only logged, never returned to a caller of `Write`. -/
theorem compress_file_outcomes :
    ∀ (removeTmpOk o4 o5 o6 b1 b2 b3 b4 : Bool) (compress : Bool) (name : String)
      (renameOk : Nat → Bool) (openOk : Bool) (old : GoFile),
    CompressFile true true true true true true = ⟨none, true, false⟩ ∧
    CompressFile true true true false true removeTmpOk
      = ⟨some .copyFailed, false, true⟩ ∧
    CompressFile true true false o4 o5 o6 = ⟨some .seekFailed, true, true⟩ ∧
    CompressFile true false b1 b2 b3 b4 = ⟨some .openFailed, true, true⟩ ∧
    (Reopen compress name renameOk openOk old).error = none := by
  intro removeTmpOk o4 o5 o6 b1 b2 b3 b4 compress name renameOk openOk old
  refine ⟨rfl, rfl, rfl, rfl, reopen_error_none compress name renameOk openOk old⟩

end RollingWriter
